import Mathlib

/-!
Shallow embedding of the keyword rank-tracking monitor
(src/monitor/scheduler.py, src/monitor/db.py).

Modelling conventions:
* a Python dict key that may be absent becomes an `Option` field
  (`result.get('position')` reads the `Option`, `'link' in result`
  tests it against `none`);
* the remote probe (`serpapi.GoogleSearch(...).get_dict()`) is an
  external collaborator; its outcome is passed in as an
  `Except String SearchResults` value — `.error` models the probe
  raising, `.ok` the returned response dict;
* `datetime.now()` timestamps are modelled by the insertion counter
  (the store's length at insertion time), which realises the
  "timestamp strictly increases per (keyword, domain) partition in
  insertion order" property that MongoDB's sort-by-timestamp-descending
  query relies on: sorting by timestamp descending coincides with
  reversing insertion order;
* a Python function body that contains no `raise` is embedded as a
  total function; one that can let an exception escape carries an
  explicit error channel.
-/

/-- One entry of the provider's `organic_results` list.  Every field is
optional because the provider response is an untyped dict and the code
reads each field with `.get` (only `link` is presence-tested). -/
structure SearchResult where
  position : Option Int
  link : Option String
  title : Option String
  snippet : Option String
deriving DecidableEq

/-- The provider response dict, reduced to the fields the code reads:
the `organic_results` key (absent ↦ `none`) and the nested
`search_information.total_results` chain. -/
structure SearchResults where
  organic_results : Option (List SearchResult)
  total_results : Option Int
deriving DecidableEq

/-- The empty dict `{}` that `search_keyword` returns when the probe
raises: no `organic_results` key, no `search_information` key. -/
def emptyResults : SearchResults := ⟨none, none⟩

/-- The ranking-data dict built by `check_domain_ranking`
(a RankingObservation before persistence). -/
structure RankingData where
  found : Bool
  position : Option Int
  link : Option String
  title : Option String
  snippet : Option String
  total_results : Option Int
  search_params : List (String × String)
deriving DecidableEq

/-- `KeywordMonitor.search_keyword`: forwards the probe's response and
catches any exception, degrading to the empty dict `{}`. -/
def search_keyword (probeRes : Except String SearchResults) : SearchResults :=
  match probeRes with
  | .ok r => r
  | .error _ => emptyResults

/-- `pat.isPrefixOfChars l`: the character list `pat` starts the list `l`. -/
def startsChars : List Char → List Char → Bool
  | [], _ => true
  | _ :: _, [] => false
  | p :: ps, c :: cs => p == c && startsChars ps cs

/-- `pat` occurs as a contiguous sublist of `l`. -/
def subChars (pat : List Char) : List Char → Bool
  | [] => startsChars pat []
  | c :: cs => startsChars pat (c :: cs) || subChars pat cs

/-- Python's `pat in s` on strings: case-sensitive raw substring test. -/
def strIn (pat s : String) : Bool := subChars pat.data s.data

/-- The loop guard `'link' in result and domain in result['link']`. -/
def matchesDomain (domain : String) (r : SearchResult) : Bool :=
  match r.link with
  | some l => strIn domain l
  | none => false

/-- The `for result in results['organic_results']` scan of
`check_domain_ranking`: first result whose link passes the guard. -/
def scanResults (domain : String) : List SearchResult → Option SearchResult
  | [] => none
  | r :: rs =>
    match r.link with
    | some l => if strIn domain l then some r else scanResults domain rs
    | none => scanResults domain rs

/-- The "not found" ranking dict built in both fall-through branches of
`check_domain_ranking`. -/
def notFoundObs (sp : List (String × String)) (tot : Option Int) : RankingData :=
  ⟨false, none, none, none, none, tot, sp⟩

/-- The "found" ranking dict built from the matching result. -/
def foundObs (sp : List (String × String)) (r : SearchResult) (tot : Option Int) :
    RankingData :=
  ⟨true, r.position, r.link, r.title, r.snippet, tot, sp⟩

/-- `KeywordMonitor.check_domain_ranking`.  The guard
`not results or 'organic_results' not in results` is equivalent to the
`organic_results` key being absent, since the empty dict has no keys. -/
def check_domain_ranking (sp : List (String × String))
    (probeRes : Except String SearchResults) (domain : String) : RankingData :=
  let results := search_keyword probeRes
  match results.organic_results with
  | none => notFoundObs sp results.total_results
  | some lst =>
    match scanResults domain lst with
    | some r => foundObs sp r results.total_results
    | none => notFoundObs sp results.total_results

/-- A document of the `keyword_rankings` collection, field for field the
dict built by `MongoDBHandler.save_ranking` (`datetime.now()` modelled
by the insertion counter, see the header). -/
structure Doc where
  keyword : String
  domain : String
  timestamp : Nat
  position : Option Int
  link : Option String
  title : Option String
  snippet : Option String
  found : Bool
  total_results : Option Int
  search_params : List (String × String)
deriving DecidableEq

/-- The document `save_ranking` inserts for `(k, d)` and `rd`. -/
def mkDoc (store : List Doc) (k d : String) (rd : RankingData) : Doc :=
  ⟨k, d, store.length, rd.position, rd.link, rd.title, rd.snippet,
    rd.found, rd.total_results, rd.search_params⟩

/-- `MongoDBHandler.save_ranking`: appends one immutable document; the
timestamp is the insertion counter, strictly increasing per store. -/
def save_ranking (store : List Doc) (k d : String) (rd : RankingData) : List Doc :=
  store ++ [mkDoc store k d rd]

/-- `MongoDBHandler.get_ranking_history`: documents with this keyword
and domain, sorted by timestamp descending, limited.  Because
timestamps strictly increase in insertion order, sorting by timestamp
descending is reversing insertion order. -/
def get_ranking_history (store : List Doc) (k d : String) (limit : Nat) : List Doc :=
  ((store.filter fun doc => doc.keyword == k && doc.domain == d).reverse).take limit

/-- The `change_info` dict built by `_check_changes` (the
RankChangeEvent; its `datetime.now()` field is not modelled — the
claims under verification do not mention it). -/
structure ChangeInfo where
  keyword : String
  domain : String
  previous_position : Option Int
  current_position : Option Int
deriving DecidableEq

/-- `KeywordMonitor._check_changes`, run after the current observation
has been saved: queries the last two documents; with fewer than two,
no event; otherwise the event is emitted iff the current position
differs from the second-latest document's position.  The returned
`Option ChangeInfo` is the emitted event (delivered to the callback
when one is registered). -/
def check_changes (storeAfter : List Doc) (k d : String) (current : RankingData) :
    Option ChangeInfo :=
  match get_ranking_history storeAfter k d 2 with
  | _ :: previous :: _ =>
    if current.position = previous.position then none
    else some ⟨k, d, previous.position, current.position⟩
  | _ => none

/-- The external collaborators one monitoring cycle interacts with:
the probe outcome per keyword, and whether the MongoDB insert for a
given (keyword, domain) pair raises (persistence failure). -/
structure Env where
  probe : String → Except String SearchResults
  saveFail : String → String → Option String

/-- Result of (a prefix of) one monitoring cycle: the store after all
completed saves, the change events emitted in order, the pairs fully
processed in order, and the exception that escaped the cycle, if any. -/
structure CycleResult where
  store : List Doc
  events : List ChangeInfo
  processed : List (String × String)
  err : Option String
deriving DecidableEq

/-- The body of `check_all`'s nested loops over an explicit pair list:
probe and reduce (`check_domain_ranking`, total — probe errors are
caught inside it), save (`db.save_ranking`, fallible — there is no
try/except around the loop body, so a raised persistence error
escapes `check_all` at once), detect changes, then the next pair. -/
def runPairs (env : Env) (sp : List (String × String)) (store : List Doc) :
    List (String × String) → CycleResult
  | [] => ⟨store, [], [], none⟩
  | (k, d) :: rest =>
    let rd := check_domain_ranking sp (env.probe k) d
    match env.saveFail k d with
    | some e => ⟨store, [], [], some e⟩
    | none =>
      let storeNext := save_ranking store k d rd
      let ev := check_changes storeNext k d rd
      let r := runPairs env sp storeNext rest
      ⟨r.store, ev.toList ++ r.events, (k, d) :: r.processed, r.err⟩

/-- The keyword-major, domain-minor iteration order of `check_all`'s
nested `for` loops. -/
def pairsOf : List String → List String → List (String × String)
  | [], _ => []
  | k :: ks, ds => (ds.map fun d => (k, d)) ++ pairsOf ks ds

/-- `KeywordMonitor.check_all`: one full cycle over the configured
keyword × domain matrix. -/
def check_all (env : Env) (sp : List (String × String))
    (keywords domains : List String) (store : List Doc) : CycleResult :=
  runPairs env sp store (pairsOf keywords domains)

/-- The scheduler-relevant mutable state of a `KeywordMonitor`
instance (`self.keywords`, `self.domains`, `self.search_params`,
`self.running`, `self.stop_event`). -/
structure SchedState where
  keywords : List String
  domains : List String
  search_params : List (String × String)
  running : Bool
  stopSet : Bool
deriving DecidableEq

/-- A freshly constructed `KeywordMonitor` (its `__init__`):
no keywords, no domains, empty search params, not running. -/
def initMonitor : SchedState := ⟨[], [], [], false, false⟩

/-- The defaults `configure` merges under the caller's overrides. -/
def defaultSearchParams : List (String × String) :=
  [("engine", "google"), ("google_domain", "google.com"), ("gl", "us"),
   ("hl", "en"), ("location", "United States")]

/-- Association-list lookup for the search-params dicts. -/
def lookupParam (l : List (String × String)) (key : String) : Option String :=
  match l with
  | [] => none
  | (a, b) :: rest => if a == key then some b else lookupParam rest key

/-- Python's `{**defaults, **overrides}`: default keys keep their slot
(override value winning on collision), then the override-only keys. -/
def mergeParams (defaults overrides : List (String × String)) :
    List (String × String) :=
  (defaults.map fun kv =>
      (kv.1, match lookupParam overrides kv.1 with
             | some v => v
             | none => kv.2)) ++
    overrides.filter fun kv => (lookupParam defaults kv.1).isNone

/-- `KeywordMonitor.configure`: stores the keyword and domain lists as
given and merges the search parameters.  The source body contains no
`raise` and no validation, so the embedding always returns `.ok`; the
error channel is kept to state claims about configuration failure. -/
def configure (s : SchedState) (keywords domains : List String)
    (overrides : List (String × String)) : Except String SchedState :=
  .ok { s with keywords := keywords, domains := domains,
               search_params := mergeParams defaultSearchParams overrides }

/-- One observable step of the background loop's trace. -/
inductive LoopEv where
  | cycleOk
  | cycleErr
  | wait
deriving DecidableEq

/-- Collapse the outcome marking of a cycle event, keeping the control
flow: used to state that errors do not alter the loop's progression. -/
def collapseEv : LoopEv → LoopEv
  | .cycleOk => .cycleOk
  | .cycleErr => .cycleOk
  | .wait => .wait

/-- `KeywordMonitor._monitor_loop`.  `cycleRes i` is the outcome of the
`check_all()` call of iteration `i` (ok, or the exception it raises);
`stopSet i` tells whether `stop_event.is_set()` holds when iteration
`i` begins.  The `while` loop is unrolled up to `fuel` iterations; each
iteration catches any cycle exception (`except Exception`) and then
waits on the stop event for the interval. -/
def monitor_loop (cycleRes : Nat → Except String Unit) (stopSet : Nat → Bool) :
    Nat → Nat → List LoopEv
  | 0, _ => []
  | fuel + 1, i =>
    if stopSet i then []
    else
      (match cycleRes i with
       | .ok _ => LoopEv.cycleOk
       | .error _ => LoopEv.cycleErr) ::
        LoopEv.wait :: monitor_loop cycleRes stopSet fuel (i + 1)

/-- What a `start()` call does, beyond its state update. -/
inductive StartOut where
  | alreadyRunning
  | configError
  | initialCycleRaised (e : String)
  | started (trace : List LoopEv)
deriving DecidableEq

/-- `KeywordMonitor.start`: warning no-op when already running; raises
`ValueError` when keywords or domains are empty; otherwise sets
`running`, clears the stop event, runs one synchronous `check_all()`
when `run_immediately` (an exception there escapes `start` itself,
after `running` was already set), then spawns the thread running
`_monitor_loop`.  `immRes` is the outcome of the immediate cycle;
`cycleRes`/`stopSet`/`fuel` parameterise the spawned loop. -/
def start (s : SchedState) (runImmediately : Bool) (immRes : Except String Unit)
    (cycleRes : Nat → Except String Unit) (stopSet : Nat → Bool) (fuel : Nat) :
    StartOut × SchedState :=
  if s.running then (.alreadyRunning, s)
  else if s.keywords.isEmpty || s.domains.isEmpty then (.configError, s)
  else
    let s1 : SchedState := { s with running := true, stopSet := false }
    if runImmediately then
      match immRes with
      | .error e => (.initialCycleRaised e, s1)
      | .ok _ =>
        (.started (LoopEv.cycleOk :: monitor_loop cycleRes stopSet fuel 0), s1)
    else (.started (monitor_loop cycleRes stopSet fuel 0), s1)

/-- What a `stop()` call reports. -/
inductive StopOut where
  | notRunning
  | stopped
deriving DecidableEq

/-- `KeywordMonitor.stop`: informational no-op when not running;
otherwise clears `running`, sets the stop event and joins the thread
(the join itself has no modelled effect on this state). -/
def stop (s : SchedState) : StopOut × SchedState :=
  if s.running then (.stopped, { s with running := false, stopSet := true })
  else (.notRunning, s)

/-- `KeywordMonitor.run_once`: exactly `self.check_all()` — no
configuration check, no error handling of its own. -/
def run_once (env : Env) (s : SchedState) (store : List Doc) : CycleResult :=
  check_all env s.search_params s.keywords s.domains store

/-! Helper lemmas shared by the claim theorems. -/

/-- The just-inserted document heads the post-save history and the rest
is the pre-save history (one shorter limit): filtering and reversing
commute with the append performed by `save_ranking`. -/
theorem get_ranking_history_save (store : List Doc) (k d : String) (rd : RankingData) :
    get_ranking_history (save_ranking store k d rd) k d 2 =
      mkDoc store k d rd :: get_ranking_history store k d 1 := by
  unfold get_ranking_history save_ranking
  rw [List.filter_append]
  simp [mkDoc]

/-- The result scan is `List.find?` of the link guard: first match in
provider-given order wins. -/
theorem scanResults_eq_find (domain : String) (lst : List SearchResult) :
    scanResults domain lst = lst.find? (matchesDomain domain) := by
  induction lst with
  | nil => rfl
  | cons r rs ih =>
    cases h : r.link with
    | none => simp [scanResults, List.find?, matchesDomain, h, ih]
    | some l =>
      by_cases hs : strIn domain l = true
      · simp [scanResults, List.find?, matchesDomain, h, hs]
      · simp [scanResults, List.find?, matchesDomain, h, hs, ih]

/-- A result selected by the scan always carries a link that passed the
substring guard. -/
theorem scanResults_link (domain : String) (lst : List SearchResult)
    (r : SearchResult) (h : scanResults domain lst = some r) :
    ∃ l, r.link = some l ∧ strIn domain l = true := by
  induction lst with
  | nil => simp [scanResults] at h
  | cons a as ih =>
    cases ha : a.link with
    | none =>
      rw [scanResults, ha] at h
      exact ih h
    | some l =>
      rw [scanResults, ha] at h
      by_cases hs : strIn domain l = true
      · simp only [hs, if_true] at h
        injection h with h
        subst h
        exact ⟨l, ha, hs⟩
      · simp only [hs, if_false] at h
        exact ih h

/-- Control-flow of `runPairs`: pairs are completed up to (excluding)
the first pair whose save raises, and that first failure is the
exception escaping the cycle. -/
theorem runPairs_spec (env : Env) (sp : List (String × String)) (store : List Doc)
    (pairs : List (String × String)) :
    (runPairs env sp store pairs).processed =
      pairs.takeWhile (fun p => (env.saveFail p.1 p.2).isNone) ∧
    (runPairs env sp store pairs).err =
      ((pairs.dropWhile fun p => (env.saveFail p.1 p.2).isNone).head?).bind
        (fun p => env.saveFail p.1 p.2) := by
  induction pairs generalizing store with
  | nil => exact ⟨rfl, rfl⟩
  | cons p rest ih =>
    obtain ⟨k, d⟩ := p
    cases h : env.saveFail k d with
    | some e =>
      simp [runPairs, h, List.takeWhile_cons, List.dropWhile_cons]
    | none =>
      have := ih (save_ranking store k d (check_domain_ranking sp (env.probe k) d))
      simp [runPairs, h, List.takeWhile_cons, List.dropWhile_cons, this.1, this.2]

/-- C1: after the fresh observation for `(k, d)` has been saved, the
change detector emits an event iff a prior observation for that key
existed (so at least two are now stored) and its position — the
baseline, second-most-recent after the save — differs from the
current observation's position (`Option Int` equality: null vs
non-null differs, equal incl. both null does not); the event carries
the baseline position as `previous_position` and the new position as
`current_position`. -/
theorem detectChange_iff_baseline_position_differs
    (store : List Doc) (k d : String) (rd : RankingData) :
    check_changes (save_ranking store k d rd) k d rd =
      match get_ranking_history store k d 1 with
      | [] => none
      | previous :: _ =>
        if rd.position = previous.position then none
        else some ⟨k, d, previous.position, rd.position⟩ := by
  unfold check_changes
  rw [get_ranking_history_save]
  cases h : get_ranking_history store k d 1 with
  | nil => simp
  | cons previous t => simp

/-- C5: on a provider response carrying a non-empty organic-results
list, `check_domain_ranking` returns the found observation built from
the first result (provider order) whose link contains the target
domain as a raw case-sensitive substring, and the not-found
observation with the response's `total_results` metadata (or null)
when no link matches. -/
theorem check_domain_ranking_first_substring_match
    (sp : List (String × String)) (r : SearchResults)
    (lst : List SearchResult) (domain : String)
    (horg : r.organic_results = some lst) (_hne : lst ≠ []) :
    check_domain_ranking sp (.ok r) domain =
      match lst.find? (matchesDomain domain) with
      | some res => foundObs sp res r.total_results
      | none => notFoundObs sp r.total_results := by
  simp only [check_domain_ranking, search_keyword]
  rw [horg]
  simp only [scanResults_eq_find]

/-- Witness for C5 at the spec's own example: the link
`https://shop.example.com/dataget.ai/page` matches the target domain
`dataget.ai` as a raw substring and yields the found observation at
that result's reported position. -/
theorem check_domain_ranking_first_substring_match_witness :
    check_domain_ranking []
        (.ok ⟨some [⟨some 2, some "https://shop.example.com/dataget.ai/page",
                      none, none⟩], some 1000⟩)
        "dataget.ai" =
      foundObs [] ⟨some 2, some "https://shop.example.com/dataget.ai/page",
                    none, none⟩ (some 1000) := by
  rw [check_domain_ranking_first_substring_match []
        ⟨some [⟨some 2, some "https://shop.example.com/dataget.ai/page",
                 none, none⟩], some 1000⟩
        [⟨some 2, some "https://shop.example.com/dataget.ai/page", none, none⟩]
        "dataget.ai" rfl (by decide)]
  decide

/-- C6: a probe error is caught inside `search_keyword` (degrading to
the empty response), so `check_domain_ranking` returns a not-found
observation whose position, link, title and snippet are all null
instead of letting the error escape — in the embedding the checking
path is a total function of the probe outcome. -/
theorem probe_error_degrades_to_not_found
    (sp : List (String × String)) (e : String) (domain : String) :
    check_domain_ranking sp (.error e) domain = notFoundObs sp none ∧
    (check_domain_ranking sp (.error e) domain).found = false ∧
    (check_domain_ranking sp (.error e) domain).position = none ∧
    (check_domain_ranking sp (.error e) domain).link = none ∧
    (check_domain_ranking sp (.error e) domain).title = none ∧
    (check_domain_ranking sp (.error e) domain).snippet = none :=
  ⟨rfl, rfl, rfl, rfl, rfl, rfl⟩

/-- Concrete cycle environment for refuting C2: probing succeeds, but
the MongoDB insert for the pair ("k", "d1") raises. -/
def c2env : Env :=
  ⟨fun _ => .ok ⟨some [], some 10⟩,
   fun k d => if k == "k" && d == "d1" then some "mongo insert failed" else none⟩

/-- C2 counterexample: with keywords `["k"]` and domains
`["d1", "d2"]` and a persistence error on the first pair, the error
escapes `check_all` and the subsequent pair `("k", "d2")` of the same
cycle is never processed — refuting the claim that one pair's failure
never aborts the cycle. -/
theorem check_all_save_failure_aborts_cycle_cex :
    (check_all c2env [] ["k"] ["d1", "d2"] []).err = some "mongo insert failed" ∧
    ("k", "d2") ∉ (check_all c2env [] ["k"] ["d1", "d2"] []).processed := by
  decide

/-- C2 amended: `check_all` has no per-pair error handling — the pairs
completed in a cycle are exactly those before the first pair whose
save raises, and that first error is the one escaping the cycle
(when the cycle runs in the background loop it is caught only at the
loop level, after the rest of the cycle has been abandoned).  Probe
errors, by contrast, are caught inside the checker (see C6) and do
not abort the pair. -/
theorem check_all_stops_at_first_save_failure
    (env : Env) (sp : List (String × String)) (keywords domains : List String)
    (store : List Doc) :
    (check_all env sp keywords domains store).processed =
      (pairsOf keywords domains).takeWhile
        (fun p => (env.saveFail p.1 p.2).isNone) ∧
    (check_all env sp keywords domains store).err =
      (((pairsOf keywords domains).dropWhile
          fun p => (env.saveFail p.1 p.2).isNone).head?).bind
        (fun p => env.saveFail p.1 p.2) :=
  runPairs_spec env sp store (pairsOf keywords domains)

/-- C3 counterexample: calling `configure` with an empty keyword list
and an empty domain list is not rejected — it returns normally, the
empty matrix stored and the defaults merged, refuting "rejected with a
ConfigurationError at configuration time". -/
theorem configure_empty_lists_not_rejected_cex :
    configure initMonitor [] [] [] =
      .ok ⟨[], [], defaultSearchParams, false, false⟩ := rfl

/-- C3 amended: `configure` performs no validation and accepts empty
keyword/domain lists; the emptiness check happens only in `start()`,
which raises (ValueError) before any cycle or probe when the monitor
so configured is started. -/
theorem configure_accepts_empty_start_raises
    (s : SchedState) (ov : List (String × String)) (hrun : s.running = false) :
    ∃ s1, configure s [] [] ov = .ok s1 ∧ s1.keywords = [] ∧ s1.domains = [] ∧
      ∀ (b : Bool) (immRes : Except String Unit)
        (cycleRes : Nat → Except String Unit) (stopSet : Nat → Bool) (fuel : Nat),
        start s1 b immRes cycleRes stopSet fuel = (.configError, s1) := by
  refine ⟨_, rfl, rfl, rfl, ?_⟩
  intro b immRes cycleRes stopSet fuel
  simp [start, hrun]

/-- Witness for C3's amended theorem on a fresh monitor. -/
theorem configure_accepts_empty_start_raises_witness :
    ∃ s1, configure initMonitor [] [] [] = .ok s1 ∧
      s1.keywords = [] ∧ s1.domains = [] ∧
      ∀ (b : Bool) (immRes : Except String Unit)
        (cycleRes : Nat → Except String Unit) (stopSet : Nat → Bool) (fuel : Nat),
        start s1 b immRes cycleRes stopSet fuel = (.configError, s1) :=
  configure_accepts_empty_start_raises initMonitor [] rfl

/-- Hostile environment for refuting the `runOnce` half of C4: every
probe raises and every save would raise. -/
def c4env : Env := ⟨fun _ => .error "network down", fun _ _ => some "db down"⟩

/-- C4 counterexample: `run_once` on a never-configured monitor does
not fail with a configuration error — it returns normally, having
processed zero pairs and raised nothing (its `err` component is
`none`), refuting "fails fast with a ConfigurationError … for both
operations". -/
theorem run_once_unconfigured_no_error_cex :
    run_once c4env initMonitor [] = ⟨[], [], [], none⟩ := by
  decide

/-- C4 amended: `start()` invoked before `configure()` does fail fast
(configuration error, no trace, state untouched — so no probing
begins), but `run_once()` performs no configuration check at all: on
an unconfigured monitor it executes a cycle over the empty matrix,
processing zero pairs and raising no error. -/
theorem start_unconfigured_rejects_run_once_does_not
    (b : Bool) (immRes : Except String Unit)
    (cycleRes : Nat → Except String Unit) (stopSet : Nat → Bool) (fuel : Nat)
    (env : Env) (store : List Doc) :
    start initMonitor b immRes cycleRes stopSet fuel = (.configError, initMonitor) ∧
    run_once env initMonitor store = ⟨store, [], [], none⟩ :=
  ⟨rfl, rfl⟩

/-- Concrete probe response refuting C7: the matching organic result
carries a link but no `position` key. -/
def c7probe : Except String SearchResults :=
  .ok ⟨some [⟨none, some "https://d.com/x", none, none⟩], none⟩

/-- C7 counterexample: a provider result whose link matches but which
has no `position` field yields an observation with `found = true` and
`position = none`, refuting "found=true always has a non-null
position" (the code reads `result.get('position')`). -/
theorem found_with_null_position_cex :
    (check_domain_ranking [] c7probe "d.com").found = true ∧
    (check_domain_ranking [] c7probe "d.com").position = none := by
  decide

/-- C7 amended: every observation produced by `check_domain_ranking`
with `found = false` has position, link, title and snippet all null;
one with `found = true` has a non-null link (the presence-tested,
substring-matched field), while its position is whatever the matched
result reported — possibly null. -/
theorem observation_null_field_invariant
    (sp : List (String × String)) (probeRes : Except String SearchResults)
    (domain : String) :
    ((check_domain_ranking sp probeRes domain).found = false →
      (check_domain_ranking sp probeRes domain).position = none ∧
      (check_domain_ranking sp probeRes domain).link = none ∧
      (check_domain_ranking sp probeRes domain).title = none ∧
      (check_domain_ranking sp probeRes domain).snippet = none) ∧
    ((check_domain_ranking sp probeRes domain).found = true →
      (check_domain_ranking sp probeRes domain).link ≠ none) := by
  simp only [check_domain_ranking]
  cases horg : (search_keyword probeRes).organic_results with
  | none => simp [notFoundObs]
  | some lst =>
    cases hscan : scanResults domain lst with
    | none => simp [hscan, notFoundObs]
    | some r =>
      obtain ⟨l, hl, _⟩ := scanResults_link domain lst r hscan
      simp [hscan, foundObs, hl]

/-- C8: `stop()` on an idle (never started) monitor is a safe
informational no-op leaving the state untouched, and `start()` on an
already running monitor is a warning no-op that leaves the state
untouched and spawns no second loop (it returns no trace); neither
operation has an error outcome in these states. -/
theorem stop_idle_start_running_noops (s t : SchedState)
    (hs : s.running = false) (ht : t.running = true)
    (b : Bool) (immRes : Except String Unit)
    (cycleRes : Nat → Except String Unit) (stopSet : Nat → Bool) (fuel : Nat) :
    stop s = (.notRunning, s) ∧
    start t b immRes cycleRes stopSet fuel = (.alreadyRunning, t) := by
  constructor
  · simp [stop, hs]
  · simp [start, ht]

/-- Witness for C8: a fresh monitor and a running configured one. -/
theorem stop_idle_start_running_noops_witness :
    stop initMonitor = (.notRunning, initMonitor) ∧
    start ⟨["k"], ["d"], [], true, false⟩ true (.ok ()) (fun _ => .ok ())
        (fun _ => false) 1 =
      (.alreadyRunning, ⟨["k"], ["d"], [], true, false⟩) :=
  stop_idle_start_running_noops initMonitor ⟨["k"], ["d"], [], true, false⟩
    rfl rfl true (.ok ()) (fun _ => .ok ()) (fun _ => false) 1

/-- C9: an error raised by a cycle inside the background loop is
caught at the loop level and the loop proceeds to its wait and next
iteration exactly as if the cycle had succeeded — collapsing the
ok/error marking of cycle events gives the trace of an error-free run,
so the control flow is independent of cycle outcomes; and (within the
fuel bound) the loop's trace ends only because the stop signal was
observed at the top of an iteration, never because of a cycle error. -/
theorem monitor_loop_survives_cycle_errors
    (cycleRes : Nat → Except String Unit) (stopSet : Nat → Bool) (fuel i : Nat) :
    (monitor_loop cycleRes stopSet fuel i).map collapseEv =
      monitor_loop (fun _ => .ok ()) stopSet fuel i ∧
    (monitor_loop cycleRes stopSet fuel i = [] ↔ fuel = 0 ∨ stopSet i = true) := by
  induction fuel generalizing i with
  | zero => simp [monitor_loop]
  | succ n ih =>
    cases hst : stopSet i with
    | true => simp [monitor_loop, hst]
    | false =>
      constructor
      · cases hc : cycleRes i <;>
          simp [monitor_loop, hst, hc, collapseEv, (ih (i + 1)).1]
      · simp [monitor_loop, hst]

/-- C10: starting a configured idle monitor with `run_immediately`
runs two full cycles back-to-back before the first interval wait: the
synchronous one inside `start()` itself, then — because the loop body
runs a cycle before its first wait on the stop event — a second one at
the top of the background loop. -/
theorem start_immediate_two_cycles_before_wait
    (s : SchedState) (cycleRes : Nat → Except String Unit) (stopSet : Nat → Bool)
    (fuel : Nat) (hrun : s.running = false) (hk : s.keywords ≠ [])
    (hd : s.domains ≠ []) (hstop : stopSet 0 = false)
    (hcycle : cycleRes 0 = .ok ()) (hfuel : 0 < fuel) :
    ∃ rest, start s true (.ok ()) cycleRes stopSet fuel =
      (.started (LoopEv.cycleOk :: LoopEv.cycleOk :: LoopEv.wait :: rest),
       { s with running := true, stopSet := false }) := by
  obtain ⟨n, rfl⟩ : ∃ n, fuel = n + 1 := ⟨fuel - 1, by omega⟩
  have hk2 : s.keywords.isEmpty = false := by
    cases hK : s.keywords with
    | nil => exact absurd hK hk
    | cons a l => rfl
  have hd2 : s.domains.isEmpty = false := by
    cases hD : s.domains with
    | nil => exact absurd hD hd
    | cons a l => rfl
  refine ⟨monitor_loop cycleRes stopSet n 1, ?_⟩
  simp [start, monitor_loop, hrun, hk2, hd2, hstop, hcycle]

/-- Witness for C10: a monitor configured with one keyword and one
domain, error-free cycles, no stop signal, two iterations of fuel. -/
theorem start_immediate_two_cycles_before_wait_witness :
    ∃ rest, start ⟨["k"], ["d"], [], false, false⟩ true (.ok ())
        (fun _ => .ok ()) (fun _ => false) 2 =
      (.started (LoopEv.cycleOk :: LoopEv.cycleOk :: LoopEv.wait :: rest),
       ⟨["k"], ["d"], [], true, false⟩) :=
  start_immediate_two_cycles_before_wait ⟨["k"], ["d"], [], false, false⟩
    (fun _ => .ok ()) (fun _ => false) 2 rfl (by decide) (by decide) rfl rfl
    (by decide)
